import Mathlib

/-!
Shallow embedding of `src/scripts/create_lance_dataset.py` (the CLAM
patch-ingestion pipeline) and proofs of the spec claims about it.

The Python script enumerates the `.h5` coordinate-index files of a
directory, creates (mode `overwrite`) or opens a LanceDB table, and for
each slide opens the WSI file, reads the `coords` dataset together with
the optional `patch_level` / `patch_size` attributes, extracts and
JPEG-encodes patches in windows of `batch_size = 1000`, and appends each
window to the table.  External effects (filesystem, OpenSlide, JPEG
encoding, LanceDB) are modelled by an environment of oracles, and the
observable behaviour of a run is an explicit event trace.
-/

namespace CLAM

/-- One (x, y) coordinate from a `coords` dataset, in level-0 pixel space,
as read by `int(coord[0]), int(coord[1])` at line 109 of the script. -/
structure Coord where
  x : Int
  y : Int
deriving DecidableEq, Repr

/-- One H5 coordinate-index file as the script sees it: its filename,
whether the required `coords` dataset is present (`'coords' in hdf5_file`,
line 78), the coordinate list, and the two optional scalar attributes
`patch_level` and `patch_size` (lines 86-94). -/
structure H5File where
  name : String
  hasCoords : Bool
  coords : List Coord
  patchLevelAttr : Option Int
  patchSizeAttr : Option Int
deriving DecidableEq, Repr

/-- One record of the destination table, schema
`{wsi_id: string, patch_idx: int64, coord_x: int64, coord_y: int64, image: binary}`
(lines 43-49 and 122-128 of the script); `image` is the JPEG byte string. -/
structure PatchRecord where
  wsi_id : String
  patch_idx : Nat
  coord_x : Int
  coord_y : Int
  image : List Nat
deriving DecidableEq, Repr

/-- Observable events of a run, in program order: slide handle lifecycle,
the two per-slide warnings, each `table.add` call, and the per-slide
`except` handler (which prints the error and continues). -/
inductive Event where
  | openSlide (id : String)
  | closeSlide (id : String)
  | warnMissing (id : String)
  | warnMalformed (name : String)
  | append (batch : List PatchRecord)
  | errorSlide (name : String)
deriving DecidableEq, Repr

/-- Environment of external oracles: the WSI directory path, whether a path
exists on disk (`os.path.exists`), whether `openslide.OpenSlide` succeeds
for a slide id, and region extraction + RGB conversion + JPEG encoding for
a coordinate at a given level and patch size (lines 113-119); `none` means
the underlying call raises. -/
structure Env where
  wsiDir : String
  fileExists : String → Bool
  slideOpenOk : String → Bool
  extract : String → Coord → Int → Int → Option (List Nat)

/-- `f.endswith('.h5')` of line 32, on the character list of the name. -/
def isH5 (s : String) : Bool :=
  s.data.reverse.take 3 == ['5', 'h', '.']

/-- `os.path.splitext(h5_filename)[0]` of line 64, on a basename: the
extension starts at the LAST dot, except that Python skips the leading
dots of a hidden file — when every character before the last dot is
itself a dot (or there is no dot at all) the name has no extension and
the stem is the whole name.  So `a.b.h5 ↦ a.b`, but `.h5 ↦ .h5` and
`..h5 ↦ ..h5`; in particular the distinct filenames `.h5` and `.h5.h5`
both derive the identifier `.h5`. -/
def wsiId (name : String) : String :=
  let cs := name.data
  let afterDot := (cs.reverse.takeWhile (fun c => !(c == '.'))).length
  if afterDot = cs.length then name
  else
    let stem := cs.take (cs.length - afterDot - 1)
    if stem.all (fun c => c == '.') then name else ⟨stem⟩

/-- `find_wsi_file` of lines 13-17: `os.path.join(wsi_dir, f"{wsi_id}.tif")`. -/
def find_wsi_file (wsi_dir : String) (wsi_id : String) : String :=
  wsi_dir ++ "/" ++ wsi_id ++ ".tif"

/-- `batch_size = 1000` of line 100. -/
def batch_size : Nat := 1000

/-- The inner loop of lines 107-128: build the records of one window
`range(batch_start, batch_end)`, extracting and encoding one patch per
coordinate.  The first raising extraction aborts the window; the records
accumulated before it are discarded with it (the exception propagates
before `table.add` runs). -/
def buildWindow (env : Env) (id : String) (level size : Int) :
    Nat → List Coord → Option (List PatchRecord)
  | _, [] => some []
  | idx, c :: cs =>
    match env.extract id c level size with
    | none => none
    | some img =>
      match buildWindow env id level size (idx + 1) cs with
      | none => none
      | some rs =>
        some ({ wsi_id := id, patch_idx := idx, coord_x := c.x,
                coord_y := c.y, image := img } :: rs)

/-- The batching loop of lines 100-131: walk the coordinates in windows of
`batch_size`, appending each completed window to the table
(`table.add(batch_data)`, line 131).  Returns the emitted events and
whether the loop ran to completion (`false` = an extraction raised, so the
slide's remaining coordinates are never visited). -/
def streamFrom (env : Env) (id : String) (level size : Int) (idx : Nat)
    (coords : List Coord) : List Event × Bool :=
  match coords with
  | [] => ([], true)
  | c :: cs =>
    match buildWindow env id level size idx (List.take batch_size (c :: cs)) with
    | none => ([], false)
    | some batch =>
      let r := streamFrom env id level size
        (idx + (List.take batch_size (c :: cs)).length)
        (List.drop batch_size (c :: cs))
      (Event.append batch :: r.1, r.2)
termination_by coords.length
decreasing_by
  simp [batch_size]
  omega

/-- Processing of one H5 file, lines 60-139 of the script:
missing-WSI check (lines 67-70), `openslide.OpenSlide` (line 74, a raise
lands in the `except` of line 135), missing-`coords` check (lines 78-81,
which closes the slide before skipping), attribute defaulting
(lines 86-94), then streaming.  On success the slide is closed (line 133);
when an extraction raises, control jumps to the `except` handler, which
prints and continues WITHOUT closing the slide handle. -/
def processSlide (env : Env) (h5 : H5File) : List Event :=
  let id := wsiId h5.name
  if env.fileExists (find_wsi_file env.wsiDir id) = false then
    [Event.warnMissing id]
  else if env.slideOpenOk id = false then
    [Event.errorSlide h5.name]
  else if h5.hasCoords = false then
    [Event.openSlide id, Event.warnMalformed h5.name, Event.closeSlide id]
  else
    let patch_level := h5.patchLevelAttr.getD 0
    let patch_size := h5.patchSizeAttr.getD 256
    let r := streamFrom env id patch_level patch_size 0 h5.coords
    if r.2 then Event.openSlide id :: (r.1 ++ [Event.closeSlide id])
    else Event.openSlide id :: (r.1 ++ [Event.errorSlide h5.name])

/-- Outcome of `db.create_table(table_name, schema=schema, mode='overwrite')`
at line 53: success, or the two failure reasons the spec distinguishes. -/
inductive CreateResult where
  | ok
  | alreadyExists
  | otherError
deriving DecidableEq, Repr

/-- Lines 52-57: any creation failure is caught and `db.open_table` is
tried; a raise from that open propagates out of `process_h5_patches`.
Returns `some fresh` on success, where `fresh` says whether the table was
newly created (overwrite) rather than reopened. -/
def setupTable : CreateResult → Bool → Option Bool
  | CreateResult.ok, _ => some true
  | _, openOk => if openOk then some false else none

/-- Ways `process_h5_patches` raises: the `ValueError` of line 35 when no
`.h5` file is found, and a store failure (create AND open both raise). -/
inductive PipelineError where
  | noH5Files
  | storeFailure
deriving DecidableEq, Repr

/-- The whole-run environment: the per-slide oracles, the directory
listing of `h5_dir`, the outcomes of table creation and table opening,
and the rows already in a pre-existing table (visible only when the run
falls back to `db.open_table`). -/
structure PipelineEnv where
  env : Env
  dirFiles : List H5File
  createResult : CreateResult
  openTableOk : Bool
  preexisting : List PatchRecord

/-- `process_h5_patches` of lines 20-141: filter the directory listing to
`.h5` files, raise if none, create or open the table, then process each
slide in turn (every per-slide failure is contained by `continue`). -/
def process_h5_patches (p : PipelineEnv) : Except PipelineError (List Event) :=
  let files := p.dirFiles.filter (fun f => isH5 f.name)
  if files.isEmpty then Except.error PipelineError.noH5Files
  else
    match setupTable p.createResult p.openTableOk with
    | none => Except.error PipelineError.storeFailure
    | some _ => Except.ok (files.flatMap (processSlide p.env))

/-- The rows appended by a trace: the concatenation of its `append` batches. -/
def appendedRecords (evs : List Event) : List PatchRecord :=
  evs.flatMap fun e =>
    match e with
    | Event.append b => b
    | _ => []

/-- Table contents after a (non-fatal) run: a fresh overwrite-created table
starts empty, a reopened table keeps its pre-existing rows; appends go at
the end in program order. -/
def tableAfter (p : PipelineEnv) : List PatchRecord :=
  (if p.createResult = CreateResult.ok then [] else p.preexisting) ++
    appendedRecords ((p.dirFiles.filter (fun f => isH5 f.name)).flatMap (processSlide p.env))

/-- The record the script builds for coordinate `c` at index `idx`
(lines 113-128), with the image bytes the extraction oracle returns. -/
def mkRecord (env : Env) (id : String) (level size : Int) (idx : Nat)
    (c : Coord) : PatchRecord :=
  { wsi_id := id, patch_idx := idx, coord_x := c.x, coord_y := c.y,
    image := (env.extract id c level size).getD [] }

/-- The records of all of `coords` in source order starting at `idx`:
the reference result of a fully successful stream. -/
def buildAll (env : Env) (id : String) (level size : Int) :
    Nat → List Coord → List PatchRecord
  | _, [] => []
  | idx, c :: cs =>
    mkRecord env id level size idx c :: buildAll env id level size (idx + 1) cs

/-- A slide's processing completed without error: WSI file present, slide
opened, `coords` dataset present, and every extraction succeeded so the
batching loop ran to completion. -/
def slideSucceeded (env : Env) (h5 : H5File) : Bool :=
  env.fileExists (find_wsi_file env.wsiDir (wsiId h5.name)) &&
  env.slideOpenOk (wsiId h5.name) &&
  h5.hasCoords &&
  (streamFrom env (wsiId h5.name) (h5.patchLevelAttr.getD 0)
    (h5.patchSizeAttr.getD 256) 0 h5.coords).2

/-! ### Concrete fixtures

Small closed environments used to evaluate the model on explicit inputs:
the spec's concrete scenario (slide `A`, three coordinates), an
always-failing extractor, a missing WSI file, an attribute-less and an
attribute-carrying coordinate file, and a directory with no `.h5` file. -/

/-- Every oracle succeeds; every patch encodes to the byte string `[7]`. -/
def envAll : Env :=
  { wsiDir := "W", fileExists := fun _ => true, slideOpenOk := fun _ => true,
    extract := fun _ _ _ _ => some [7] }

/-- Region extraction raises at every coordinate. -/
def envRaise : Env :=
  { wsiDir := "W", fileExists := fun _ => true, slideOpenOk := fun _ => true,
    extract := fun _ _ _ _ => none }

/-- No WSI file exists on disk. -/
def envNoWsi : Env :=
  { wsiDir := "W", fileExists := fun _ => false, slideOpenOk := fun _ => true,
    extract := fun _ _ _ _ => some [7] }

/-- The spec's concrete scenario: `A.h5` with coordinates
`[(0,0), (256,0), (0,256)]` and no metadata attributes. -/
def h5A : H5File :=
  { name := "A.h5", hasCoords := true, coords := [⟨0, 0⟩, ⟨256, 0⟩, ⟨0, 256⟩],
    patchLevelAttr := none, patchSizeAttr := none }

/-- A coordinate file whose `coords` dataset is empty. -/
def h5Empty : H5File :=
  { name := "E.h5", hasCoords := true, coords := [],
    patchLevelAttr := none, patchSizeAttr := none }

/-- A coordinate file missing the required `coords` dataset. -/
def h5Malformed : H5File :=
  { name := "M.h5", hasCoords := false, coords := [],
    patchLevelAttr := none, patchSizeAttr := none }

/-- A coordinate file carrying explicit `patch_level` and `patch_size`. -/
def h5Attrs : H5File :=
  { name := "L.h5", hasCoords := true, coords := [⟨1, 2⟩],
    patchLevelAttr := some 1, patchSizeAttr := some 512 }

/-- A directory entry that is not a coordinate file. -/
def fileTxt : H5File :=
  { name := "notes.txt", hasCoords := false, coords := [],
    patchLevelAttr := none, patchSizeAttr := none }

/-- A fresh-table run over the concrete scenario. -/
def pA : PipelineEnv :=
  { env := envAll, dirFiles := [h5A], createResult := CreateResult.ok,
    openTableOk := true, preexisting := [] }

/-- A run whose only slide fails region extraction at every coordinate. -/
def pRaise : PipelineEnv :=
  { env := envRaise, dirFiles := [h5A], createResult := CreateResult.ok,
    openTableOk := true, preexisting := [] }

/-- A run whose slide file is missing on disk. -/
def pNoWsi : PipelineEnv :=
  { env := envNoWsi, dirFiles := [h5A], createResult := CreateResult.ok,
    openTableOk := true, preexisting := [] }

/-- A run over a directory holding no `.h5` file at all. -/
def pNoH5 : PipelineEnv :=
  { env := envAll, dirFiles := [fileTxt], createResult := CreateResult.ok,
    openTableOk := true, preexisting := [] }

/-- A run where table creation fails for a reason other than a name
conflict, and opening the existing table then succeeds. -/
def pCreateFails : PipelineEnv :=
  { env := envNoWsi, dirFiles := [h5A], createResult := CreateResult.otherError,
    openTableOk := true, preexisting := [] }

/-- A run over the malformed coordinate file. -/
def pMalformed : PipelineEnv :=
  { env := envAll, dirFiles := [h5Malformed], createResult := CreateResult.ok,
    openTableOk := true, preexisting := [] }

/-- A run over the empty coordinate file. -/
def pEmpty : PipelineEnv :=
  { env := envAll, dirFiles := [h5Empty], createResult := CreateResult.ok,
    openTableOk := true, preexisting := [] }

/-- A hidden coordinate file named exactly `.h5`: `os.path.splitext`
treats it as having no extension, so its derived identifier is `.h5`. -/
def h5Dot : H5File :=
  { name := ".h5", hasCoords := true, coords := [⟨0, 0⟩],
    patchLevelAttr := none, patchSizeAttr := none }

/-- A coordinate file named `.h5.h5`, whose stem — and so derived
identifier — is also `.h5`, colliding with the file named `.h5`. -/
def h5DotH5 : H5File :=
  { name := ".h5.h5", hasCoords := true, coords := [⟨1, 1⟩, ⟨2, 2⟩],
    patchLevelAttr := none, patchSizeAttr := none }

/-- A fresh-table run over the two coordinate files whose distinct
filenames derive the same slide identifier. -/
def pCollide : PipelineEnv :=
  { env := envAll, dirFiles := [h5Dot, h5DotH5], createResult := CreateResult.ok,
    openTableOk := true, preexisting := [] }

/-! ### Basic lemmas about traces and record lists -/

@[simp] theorem appendedRecords_nil : appendedRecords [] = [] := rfl

@[simp] theorem appendedRecords_cons (e : Event) (evs : List Event) :
    appendedRecords (e :: evs) =
      (match e with | Event.append b => b | _ => []) ++ appendedRecords evs := rfl

@[simp] theorem appendedRecords_append (l₁ l₂ : List Event) :
    appendedRecords (l₁ ++ l₂) = appendedRecords l₁ ++ appendedRecords l₂ := by
  simp [appendedRecords]

@[simp] theorem buildAll_nil (env : Env) (id : String) (level size : Int)
    (idx : Nat) : buildAll env id level size idx [] = [] := rfl

@[simp] theorem buildAll_cons (env : Env) (id : String) (level size : Int)
    (idx : Nat) (c : Coord) (cs : List Coord) :
    buildAll env id level size idx (c :: cs) =
      mkRecord env id level size idx c :: buildAll env id level size (idx + 1) cs := rfl

theorem buildAll_append (env : Env) (id : String) (level size : Int)
    (l₁ l₂ : List Coord) : ∀ idx : Nat,
    buildAll env id level size idx (l₁ ++ l₂) =
      buildAll env id level size idx l₁ ++
        buildAll env id level size (idx + l₁.length) l₂ := by
  induction l₁ with
  | nil => intro idx; simp
  | cons c cs ih =>
    intro idx
    simp only [List.cons_append, buildAll_cons, ih (idx + 1), List.length_cons]
    rw [Nat.add_comm cs.length 1, ← Nat.add_assoc]

@[simp] theorem buildAll_length (env : Env) (id : String) (level size : Int)
    (l : List Coord) : ∀ idx : Nat,
    (buildAll env id level size idx l).length = l.length := by
  induction l with
  | nil => intro idx; rfl
  | cons c cs ih => intro idx; simp [ih]

theorem buildAll_map_idx (env : Env) (id : String) (level size : Int)
    (l : List Coord) : ∀ idx : Nat,
    (buildAll env id level size idx l).map (fun r => r.patch_idx) =
      List.range' idx l.length := by
  induction l with
  | nil => intro idx; rfl
  | cons c cs ih => intro idx; simp [List.range'_succ, mkRecord, ih]

theorem buildAll_map_xy (env : Env) (id : String) (level size : Int)
    (l : List Coord) : ∀ idx : Nat,
    (buildAll env id level size idx l).map (fun r => (r.coord_x, r.coord_y)) =
      l.map (fun c => (c.x, c.y)) := by
  induction l with
  | nil => intro idx; rfl
  | cons c cs ih => intro idx; simp [mkRecord, ih]

theorem buildAll_wsi_id (env : Env) (id : String) (level size : Int)
    (l : List Coord) : ∀ (idx : Nat) (r : PatchRecord),
    r ∈ buildAll env id level size idx l → r.wsi_id = id := by
  induction l with
  | nil => intro idx r h; simp at h
  | cons c cs ih =>
    intro idx r h
    rcases List.mem_cons.mp h with h | h
    · subst h; rfl
    · exact ih (idx + 1) r h

/-- A window the script succeeds on yields exactly the reference records of
its coordinates, in order. -/
theorem buildWindow_eq (env : Env) (id : String) (level size : Int)
    (ws : List Coord) : ∀ (idx : Nat) (rs : List PatchRecord),
    buildWindow env id level size idx ws = some rs →
    rs = buildAll env id level size idx ws := by
  induction ws with
  | nil => intro idx rs h; simp [buildWindow] at h; simp [h.symm]
  | cons c cs ih =>
    intro idx rs h
    simp only [buildWindow] at h
    cases hx : env.extract id c level size with
    | none => rw [hx] at h; exact absurd h (by simp)
    | some img =>
      rw [hx] at h
      cases hw : buildWindow env id level size (idx + 1) cs with
      | none => rw [hw] at h; exact absurd h (by simp)
      | some rs' =>
        rw [hw] at h
        simp only [Option.some.injEq] at h
        subst h
        simp [mkRecord, hx, ih (idx + 1) rs' hw]

/-! ### The batching loop -/

/-- Master description of the batching loop: the coordinates split into a
processed prefix and an unprocessed suffix; the appended records are
exactly the reference records of the prefix; the suffix is empty exactly
when the loop completed; and the trace holds nothing but `append` events. -/
theorem streamFrom_spec (env : Env) (id : String) (level size : Int) :
    ∀ (n : Nat) (coords : List Coord), coords.length ≤ n → ∀ idx : Nat,
    ∃ pre post : List Coord,
      coords = pre ++ post ∧
      appendedRecords (streamFrom env id level size idx coords).1 =
        buildAll env id level size idx pre ∧
      ((streamFrom env id level size idx coords).2 = true ↔ post = []) ∧
      (∀ e ∈ (streamFrom env id level size idx coords).1,
        ∃ b, e = Event.append b) := by
  intro n
  induction n with
  | zero =>
    intro coords hlen idx
    have hnil : coords = [] := List.length_eq_zero.mp (Nat.le_zero.mp hlen)
    subst hnil
    exact ⟨[], [], rfl, by simp [streamFrom], by simp [streamFrom], by simp [streamFrom]⟩
  | succ n ih =>
    intro coords hlen idx
    match coords with
    | [] =>
      exact ⟨[], [], rfl, by simp [streamFrom], by simp [streamFrom], by simp [streamFrom]⟩
    | c :: cs =>
      cases hw : buildWindow env id level size idx (List.take batch_size (c :: cs)) with
      | none =>
        refine ⟨[], c :: cs, rfl, ?_, ?_, ?_⟩ <;>
          simp [streamFrom, hw]
      | some batch =>
        have hdroplen : (List.drop batch_size (c :: cs)).length ≤ n := by
          simp only [List.length_drop, List.length_cons, batch_size]
          simp only [List.length_cons] at hlen
          omega
        obtain ⟨pre', post', hsplit, hrec, hflag, hsh⟩ :=
          ih (List.drop batch_size (c :: cs)) hdroplen
            (idx + (List.take batch_size (c :: cs)).length)
        refine ⟨List.take batch_size (c :: cs) ++ pre', post', ?_, ?_, ?_, ?_⟩
        · rw [List.append_assoc, ← hsplit, List.take_append_drop]
        · rw [streamFrom]
          simp only [hw, appendedRecords_cons]
          rw [buildAll_append, ← hrec,
            buildWindow_eq env id level size _ _ _ hw]
        · rw [streamFrom]
          simp only [hw]
          exact hflag
        · intro e he
          rw [streamFrom] at he
          simp only [hw, List.mem_cons] at he
          rcases he with he | he
          · exact ⟨batch, he⟩
          · exact hsh e he

/-- A loop that ran to completion appended exactly the reference records of
all the coordinates. -/
theorem streamFrom_ok_records (env : Env) (id : String) (level size : Int)
    (idx : Nat) (coords : List Coord)
    (h : (streamFrom env id level size idx coords).2 = true) :
    appendedRecords (streamFrom env id level size idx coords).1 =
      buildAll env id level size idx coords := by
  obtain ⟨pre, post, hsplit, hrec, hflag, -⟩ :=
    streamFrom_spec env id level size coords.length coords le_rfl idx
  have hpost : post = [] := hflag.mp h
  subst hpost
  rw [List.append_nil] at hsplit
  rw [hrec, hsplit]

/-- A loop an extraction failure aborted appended exactly the reference
records of a proper prefix of the coordinates. -/
theorem streamFrom_fail_records (env : Env) (id : String) (level size : Int)
    (idx : Nat) (coords : List Coord)
    (h : (streamFrom env id level size idx coords).2 = false) :
    ∃ pre post : List Coord,
      coords = pre ++ post ∧ post ≠ [] ∧
      appendedRecords (streamFrom env id level size idx coords).1 =
        buildAll env id level size idx pre := by
  obtain ⟨pre, post, hsplit, hrec, hflag, -⟩ :=
    streamFrom_spec env id level size coords.length coords le_rfl idx
  refine ⟨pre, post, hsplit, ?_, hrec⟩
  intro hpost
  rw [hflag.mpr hpost] at h
  simp at h

/-- Every batch the loop appends is a nonempty window of at most
`batch_size` records whose patch indices are consecutive and ascending. -/
theorem streamFrom_batch_shape (env : Env) (id : String) (level size : Int) :
    ∀ (n : Nat) (coords : List Coord), coords.length ≤ n →
    ∀ (idx : Nat) (b : List PatchRecord),
    Event.append b ∈ (streamFrom env id level size idx coords).1 →
    b ≠ [] ∧ b.length ≤ batch_size ∧
      ∃ st : Nat, b.map (fun r => r.patch_idx) = List.range' st b.length := by
  intro n
  induction n with
  | zero =>
    intro coords hlen idx b hb
    have hnil : coords = [] := List.length_eq_zero.mp (Nat.le_zero.mp hlen)
    subst hnil
    simp [streamFrom] at hb
  | succ n ih =>
    intro coords hlen idx b hb
    match coords with
    | [] => simp [streamFrom] at hb
    | c :: cs =>
      rw [streamFrom] at hb
      cases hw : buildWindow env id level size idx (List.take batch_size (c :: cs)) with
      | none => rw [hw] at hb; simp at hb
      | some batch =>
        rw [hw] at hb
        simp only [List.mem_cons, Event.append.injEq] at hb
        rcases hb with hb | hb
        · subst hb
          have hbatch := buildWindow_eq env id level size _ _ _ hw
          subst hbatch
          have hlen' : (List.take batch_size (c :: cs)).length ≤ batch_size :=
            List.length_take_le batch_size (c :: cs)
          have hne : List.take batch_size (c :: cs) ≠ [] := by
            have : 0 < batch_size := by decide
            simp [List.take_eq_nil_iff]
            omega
          refine ⟨?_, ?_, idx, ?_⟩
          · cases hT : List.take batch_size (c :: cs) with
            | nil => exact absurd hT hne
            | cons d ds => simp [hT]
          · rw [buildAll_length]; exact hlen'
          · rw [buildAll_length, buildAll_map_idx]
        · have hdroplen : (List.drop batch_size (c :: cs)).length ≤ n := by
            simp only [List.length_drop, List.length_cons, batch_size]
            simp only [List.length_cons] at hlen
            omega
          exact ih (List.drop batch_size (c :: cs)) hdroplen _ b hb

/-! ### Per-slide processing -/

/-- On a slide whose WSI exists, opens, and has a `coords` dataset, the
trace is: open, the streaming trace, then close (success) or the error
handler (failure) — and the handler does not close the slide. -/
theorem processSlide_streaming (env : Env) (h5 : H5File)
    (hex : env.fileExists (find_wsi_file env.wsiDir (wsiId h5.name)) = true)
    (hop : env.slideOpenOk (wsiId h5.name) = true)
    (hco : h5.hasCoords = true) :
    processSlide env h5 =
      Event.openSlide (wsiId h5.name) ::
        ((streamFrom env (wsiId h5.name) (h5.patchLevelAttr.getD 0)
            (h5.patchSizeAttr.getD 256) 0 h5.coords).1 ++
          [if (streamFrom env (wsiId h5.name) (h5.patchLevelAttr.getD 0)
              (h5.patchSizeAttr.getD 256) 0 h5.coords).2 then
            Event.closeSlide (wsiId h5.name)
          else Event.errorSlide h5.name]) := by
  by_cases hfl : (streamFrom env (wsiId h5.name) (h5.patchLevelAttr.getD 0)
      (h5.patchSizeAttr.getD 256) 0 h5.coords).2 = true
  · simp [processSlide, hex, hop, hco, hfl]
  · simp [processSlide, hex, hop, hco, hfl]

/-- The records a slide contributes all carry that slide's identifier. -/
theorem processSlide_records_id (env : Env) (h5 : H5File) :
    ∀ r ∈ appendedRecords (processSlide env h5), r.wsi_id = wsiId h5.name := by
  intro r hr
  by_cases hex : env.fileExists (find_wsi_file env.wsiDir (wsiId h5.name)) = true
  · by_cases hop : env.slideOpenOk (wsiId h5.name) = true
    · by_cases hco : h5.hasCoords = true
      · obtain ⟨pre, post, -, hrec, -, -⟩ :=
          streamFrom_spec env (wsiId h5.name) (h5.patchLevelAttr.getD 0)
            (h5.patchSizeAttr.getD 256) h5.coords.length h5.coords le_rfl 0
        by_cases hfl : (streamFrom env (wsiId h5.name) (h5.patchLevelAttr.getD 0)
            (h5.patchSizeAttr.getD 256) 0 h5.coords).2 = true
        · simp [processSlide_streaming env h5 hex hop hco, hfl, hrec] at hr
          exact buildAll_wsi_id env (wsiId h5.name) _ _ pre 0 r hr
        · simp [processSlide_streaming env h5 hex hop hco, hfl, hrec] at hr
          exact buildAll_wsi_id env (wsiId h5.name) _ _ pre 0 r hr
      · simp only [processSlide, hex, hop, Bool.eq_false_iff.mpr hco] at hr
        simp at hr
    · simp only [processSlide, hex, Bool.eq_false_iff.mpr hop] at hr
      simp at hr
  · simp only [processSlide, Bool.eq_false_iff.mpr hex] at hr
    simp at hr

/-- The rows of a multi-slide trace, slide by slide. -/
theorem appendedRecords_flatMap (l : List H5File) (f : H5File → List Event) :
    appendedRecords (l.flatMap f) = l.flatMap (fun g => appendedRecords (f g)) := by
  induction l with
  | nil => rfl
  | cons g gs ih => simp [List.flatMap_cons, ih]

/-! ### Whole-run decomposition -/

/-- With the store available, a run whose directory splits around one file
processes the slides in order; each slide's trace sits between those of
the files before and after it. -/
theorem run_decomp (p : PipelineEnv) (l1 l2 : List H5File) (h5 : H5File)
    (b : Bool) (hd : p.dirFiles = l1 ++ h5 :: l2) (hh : isH5 h5.name = true)
    (hs : setupTable p.createResult p.openTableOk = some b) :
    process_h5_patches p =
      Except.ok ((l1.filter (fun f => isH5 f.name)).flatMap (processSlide p.env) ++
        (processSlide p.env h5 ++
          (l2.filter (fun f => isH5 f.name)).flatMap (processSlide p.env))) := by
  simp only [process_h5_patches, hd, List.filter_append, List.filter_cons, hh,
    if_pos trivial]
  rw [hs]
  simp

/-! ### Claims -/

/-- C9: if the coordinate-file directory holds no file with the `.h5`
extension, the run raises the `ValueError` of line 35 before
`lancedb.connect` (line 40) runs: the outcome is the same error whatever
the store oracles say, so no table is created or opened. -/
theorem c9_no_h5_aborts_before_store (p : PipelineEnv)
    (h : p.dirFiles.filter (fun f => isH5 f.name) = []) :
    ∀ (cr : CreateResult) (ot : Bool) (pre : List PatchRecord),
      process_h5_patches
        { env := p.env, dirFiles := p.dirFiles, createResult := cr,
          openTableOk := ot, preexisting := pre } =
        Except.error PipelineError.noH5Files := by
  intro cr ot pre
  simp [process_h5_patches, h]

/-- Witness for C9: a directory holding only `notes.txt`, with a store
that could neither create nor open a table, still fails with the
no-`.h5`-files error, not a store error. -/
theorem c9_no_h5_aborts_before_store_witness :
    pNoH5.dirFiles.filter (fun f => isH5 f.name) = [] ∧
    process_h5_patches
      { env := pNoH5.env, dirFiles := pNoH5.dirFiles,
        createResult := CreateResult.otherError, openTableOk := false,
        preexisting := [] } =
      Except.error PipelineError.noH5Files := by
  have h : pNoH5.dirFiles.filter (fun f => isH5 f.name) = [] := by decide
  exact ⟨h, c9_no_h5_aborts_before_store pNoH5 h CreateResult.otherError false []⟩

/-- C7: when the derived WSI path does not exist, the slide is skipped
with a warning before any open: its whole trace is the warning, it
appends no records, and the run is the surrounding slides' traces with
that warning in between. -/
theorem c7_missing_wsi_skipped (p : PipelineEnv) (l1 l2 : List H5File)
    (h5 : H5File) (b : Bool)
    (hd : p.dirFiles = l1 ++ h5 :: l2) (hh : isH5 h5.name = true)
    (hs : setupTable p.createResult p.openTableOk = some b)
    (hmiss : p.env.fileExists (find_wsi_file p.env.wsiDir (wsiId h5.name)) = false) :
    processSlide p.env h5 = [Event.warnMissing (wsiId h5.name)] ∧
    appendedRecords (processSlide p.env h5) = [] ∧
    process_h5_patches p =
      Except.ok ((l1.filter (fun f => isH5 f.name)).flatMap (processSlide p.env) ++
        ([Event.warnMissing (wsiId h5.name)] ++
          (l2.filter (fun f => isH5 f.name)).flatMap (processSlide p.env))) := by
  have hps : processSlide p.env h5 = [Event.warnMissing (wsiId h5.name)] := by
    simp [processSlide, hmiss]
  refine ⟨hps, by simp [hps], ?_⟩
  rw [run_decomp p l1 l2 h5 b hd hh hs, hps]

/-- Witness for C7 on the concrete missing-WSI run. -/
theorem c7_missing_wsi_skipped_witness :
    pNoWsi.dirFiles = [] ++ h5A :: [] ∧
    isH5 h5A.name = true ∧
    setupTable pNoWsi.createResult pNoWsi.openTableOk = some true ∧
    pNoWsi.env.fileExists (find_wsi_file pNoWsi.env.wsiDir (wsiId h5A.name)) = false ∧
    (processSlide pNoWsi.env h5A = [Event.warnMissing (wsiId h5A.name)] ∧
      appendedRecords (processSlide pNoWsi.env h5A) = [] ∧
      process_h5_patches pNoWsi =
        Except.ok ((([] : List H5File).filter (fun f => isH5 f.name)).flatMap (processSlide pNoWsi.env) ++
          ([Event.warnMissing (wsiId h5A.name)] ++
            (([] : List H5File).filter (fun f => isH5 f.name)).flatMap (processSlide pNoWsi.env)))) :=
  ⟨rfl, by decide, rfl, rfl,
    c7_missing_wsi_skipped pNoWsi [] [] h5A true rfl (by decide) rfl rfl⟩

/-- C8: when the `coords` dataset is absent, the already-opened slide is
closed (line 80), the slide is skipped with a warning and zero records,
and the run continues around it. -/
theorem c8_malformed_coords_skipped (p : PipelineEnv) (l1 l2 : List H5File)
    (h5 : H5File) (b : Bool)
    (hd : p.dirFiles = l1 ++ h5 :: l2) (hh : isH5 h5.name = true)
    (hs : setupTable p.createResult p.openTableOk = some b)
    (hex : p.env.fileExists (find_wsi_file p.env.wsiDir (wsiId h5.name)) = true)
    (hop : p.env.slideOpenOk (wsiId h5.name) = true)
    (hmal : h5.hasCoords = false) :
    processSlide p.env h5 =
      [Event.openSlide (wsiId h5.name), Event.warnMalformed h5.name,
        Event.closeSlide (wsiId h5.name)] ∧
    appendedRecords (processSlide p.env h5) = [] ∧
    process_h5_patches p =
      Except.ok ((l1.filter (fun f => isH5 f.name)).flatMap (processSlide p.env) ++
        (processSlide p.env h5 ++
          (l2.filter (fun f => isH5 f.name)).flatMap (processSlide p.env))) := by
  have hps : processSlide p.env h5 =
      [Event.openSlide (wsiId h5.name), Event.warnMalformed h5.name,
        Event.closeSlide (wsiId h5.name)] := by
    simp [processSlide, hex, hop, hmal]
  exact ⟨hps, by simp [hps], run_decomp p l1 l2 h5 b hd hh hs⟩

/-- Witness for C8 on the concrete malformed-coordinate-file run. -/
theorem c8_malformed_coords_skipped_witness :
    pMalformed.dirFiles = [] ++ h5Malformed :: [] ∧
    isH5 h5Malformed.name = true ∧
    setupTable pMalformed.createResult pMalformed.openTableOk = some true ∧
    pMalformed.env.fileExists
      (find_wsi_file pMalformed.env.wsiDir (wsiId h5Malformed.name)) = true ∧
    pMalformed.env.slideOpenOk (wsiId h5Malformed.name) = true ∧
    h5Malformed.hasCoords = false ∧
    (processSlide pMalformed.env h5Malformed =
        [Event.openSlide (wsiId h5Malformed.name),
          Event.warnMalformed h5Malformed.name,
          Event.closeSlide (wsiId h5Malformed.name)] ∧
      appendedRecords (processSlide pMalformed.env h5Malformed) = [] ∧
      process_h5_patches pMalformed =
        Except.ok ((([] : List H5File).filter (fun f => isH5 f.name)).flatMap (processSlide pMalformed.env) ++
          (processSlide pMalformed.env h5Malformed ++
            (([] : List H5File).filter (fun f => isH5 f.name)).flatMap (processSlide pMalformed.env)))) :=
  ⟨rfl, by decide, rfl, rfl, rfl, rfl,
    c8_malformed_coords_skipped pMalformed [] [] h5Malformed true rfl (by decide)
      rfl rfl rfl rfl⟩

/-- C10: a slide whose `coords` dataset is present but empty is processed
without error and without a single `table.add` call: its trace is open
then close, it contributes zero records, and the run continues. -/
theorem c10_zero_coordinates (p : PipelineEnv) (l1 l2 : List H5File)
    (h5 : H5File) (b : Bool)
    (hd : p.dirFiles = l1 ++ h5 :: l2) (hh : isH5 h5.name = true)
    (hs : setupTable p.createResult p.openTableOk = some b)
    (hex : p.env.fileExists (find_wsi_file p.env.wsiDir (wsiId h5.name)) = true)
    (hop : p.env.slideOpenOk (wsiId h5.name) = true)
    (hco : h5.hasCoords = true) (hnil : h5.coords = []) :
    processSlide p.env h5 =
      [Event.openSlide (wsiId h5.name), Event.closeSlide (wsiId h5.name)] ∧
    appendedRecords (processSlide p.env h5) = [] ∧
    process_h5_patches p =
      Except.ok ((l1.filter (fun f => isH5 f.name)).flatMap (processSlide p.env) ++
        (processSlide p.env h5 ++
          (l2.filter (fun f => isH5 f.name)).flatMap (processSlide p.env))) := by
  have hstream : streamFrom p.env (wsiId h5.name) (h5.patchLevelAttr.getD 0)
      (h5.patchSizeAttr.getD 256) 0 h5.coords = ([], true) := by
    rw [hnil]
    simp [streamFrom]
  have hps : processSlide p.env h5 =
      [Event.openSlide (wsiId h5.name), Event.closeSlide (wsiId h5.name)] := by
    rw [processSlide_streaming p.env h5 hex hop hco, hstream]
    simp
  exact ⟨hps, by simp [hps], run_decomp p l1 l2 h5 b hd hh hs⟩

/-- Witness for C10 on the concrete empty-coordinate-set run. -/
theorem c10_zero_coordinates_witness :
    pEmpty.dirFiles = [] ++ h5Empty :: [] ∧
    isH5 h5Empty.name = true ∧
    setupTable pEmpty.createResult pEmpty.openTableOk = some true ∧
    pEmpty.env.fileExists
      (find_wsi_file pEmpty.env.wsiDir (wsiId h5Empty.name)) = true ∧
    pEmpty.env.slideOpenOk (wsiId h5Empty.name) = true ∧
    h5Empty.hasCoords = true ∧
    h5Empty.coords = [] ∧
    (processSlide pEmpty.env h5Empty =
        [Event.openSlide (wsiId h5Empty.name), Event.closeSlide (wsiId h5Empty.name)] ∧
      appendedRecords (processSlide pEmpty.env h5Empty) = [] ∧
      process_h5_patches pEmpty =
        Except.ok ((([] : List H5File).filter (fun f => isH5 f.name)).flatMap (processSlide pEmpty.env) ++
          (processSlide pEmpty.env h5Empty ++
            (([] : List H5File).filter (fun f => isH5 f.name)).flatMap (processSlide pEmpty.env)))) :=
  ⟨rfl, by decide, rfl, rfl, rfl, rfl, rfl,
    c10_zero_coordinates pEmpty [] [] h5Empty true rfl (by decide) rfl rfl rfl
      rfl rfl⟩

/-- C3 (code bug, evaluated at the failing input): for slide `A.h5` whose
region extraction raises at its first coordinate, the trace opens the
slide and ends in the error handler with NO `closeSlide` event.  The
`except` block of lines 135-139 prints and `continue`s without closing the
handle opened at line 74 (there is no `finally`), although both
non-exception exits do close it (lines 80 and 133) — the slide handle is
leaked on this exit path, against the claimed guaranteed-release
discipline. -/
theorem c3_handle_leaked_on_failure :
    processSlide envRaise h5A = [Event.openSlide "A", Event.errorSlide "A.h5"] := by
  simp [processSlide, envRaise, h5A, streamFrom, buildWindow, wsiId,
    find_wsi_file, batch_size]

/-- C4 counterexample: table creation fails for a reason other than a name
conflict, yet the run is NOT aborted — lines 55-57 catch EVERY creation
failure and fall back to `db.open_table`, so with a working open the run
proceeds to completion, against the claim that a non-conflict creation
failure surfaces a fatal error. -/
theorem c4_counterexample_non_conflict_not_fatal :
    pCreateFails.createResult = CreateResult.otherError ∧
    process_h5_patches pCreateFails = Except.ok [Event.warnMissing "A"] := by
  constructor
  · rfl
  · simp [process_h5_patches, pCreateFails, envNoWsi, h5A, setupTable,
      processSlide, wsiId, find_wsi_file, isH5]

/-- C4 amended: table creation with overwrite semantics is attempted
first; if creation fails for ANY reason (name conflict or not), the
pipeline falls back to opening the existing table and appending into it
(keeping that table's pre-existing rows); only when that open also fails
is a fatal store error surfaced that aborts the whole run. -/
theorem c4_create_fallback_open (p : PipelineEnv)
    (hne : (p.dirFiles.filter (fun f => isH5 f.name)).isEmpty = false) :
    (p.createResult = CreateResult.ok →
      process_h5_patches p =
        Except.ok ((p.dirFiles.filter (fun f => isH5 f.name)).flatMap (processSlide p.env)) ∧
      tableAfter p =
        appendedRecords ((p.dirFiles.filter (fun f => isH5 f.name)).flatMap (processSlide p.env))) ∧
    (p.createResult ≠ CreateResult.ok → p.openTableOk = true →
      process_h5_patches p =
        Except.ok ((p.dirFiles.filter (fun f => isH5 f.name)).flatMap (processSlide p.env)) ∧
      tableAfter p =
        p.preexisting ++
          appendedRecords ((p.dirFiles.filter (fun f => isH5 f.name)).flatMap (processSlide p.env))) ∧
    (p.createResult ≠ CreateResult.ok → p.openTableOk = false →
      process_h5_patches p = Except.error PipelineError.storeFailure) := by
  refine ⟨?_, ?_, ?_⟩
  · intro hok
    constructor
    · simp [process_h5_patches, hne, setupTable, hok]
    · simp [tableAfter, hok]
  · intro hno hop
    constructor
    · cases hcr : p.createResult with
      | ok => exact absurd hcr hno
      | alreadyExists => simp [process_h5_patches, hne, setupTable, hcr, hop]
      | otherError => simp [process_h5_patches, hne, setupTable, hcr, hop]
    · cases hcr : p.createResult with
      | ok => exact absurd hcr hno
      | alreadyExists => simp [tableAfter, hcr]
      | otherError => simp [tableAfter, hcr]
  · intro hno hop
    cases hcr : p.createResult with
    | ok => exact absurd hcr hno
    | alreadyExists => simp [process_h5_patches, hne, setupTable, hcr, hop]
    | otherError => simp [process_h5_patches, hne, setupTable, hcr, hop]

/-- Witness for the amended C4 on the concrete creation-failure run. -/
theorem c4_create_fallback_open_witness :
    (pCreateFails.dirFiles.filter (fun f => isH5 f.name)).isEmpty = false ∧
    ((pCreateFails.createResult = CreateResult.ok →
      process_h5_patches pCreateFails =
        Except.ok ((pCreateFails.dirFiles.filter (fun f => isH5 f.name)).flatMap (processSlide pCreateFails.env)) ∧
      tableAfter pCreateFails =
        appendedRecords ((pCreateFails.dirFiles.filter (fun f => isH5 f.name)).flatMap (processSlide pCreateFails.env))) ∧
    (pCreateFails.createResult ≠ CreateResult.ok → pCreateFails.openTableOk = true →
      process_h5_patches pCreateFails =
        Except.ok ((pCreateFails.dirFiles.filter (fun f => isH5 f.name)).flatMap (processSlide pCreateFails.env)) ∧
      tableAfter pCreateFails =
        pCreateFails.preexisting ++
          appendedRecords ((pCreateFails.dirFiles.filter (fun f => isH5 f.name)).flatMap (processSlide pCreateFails.env))) ∧
    (pCreateFails.createResult ≠ CreateResult.ok → pCreateFails.openTableOk = false →
      process_h5_patches pCreateFails = Except.error PipelineError.storeFailure)) :=
  ⟨by decide, c4_create_fallback_open pCreateFails (by decide)⟩

/-- C5: every batch appended during a slide's processing is a nonempty
window of at most `batch_size = 1000` records whose patch indices are
consecutive ascending (no gaps, no reordering), and across the whole slide
the appended records' indices are exactly `0, 1, 2, …` in order.  Each
window is built, handed to `table.add`, and then replaced by a fresh list
(line 105), which is the one-window memory bound of the claim. -/
theorem c5_window_discipline (env : Env) (h5 : H5File) (bt : List PatchRecord)
    (hb : Event.append bt ∈ processSlide env h5) :
    bt ≠ [] ∧ bt.length ≤ batch_size ∧
    (∃ st : Nat, bt.map (fun r => r.patch_idx) = List.range' st bt.length) ∧
    (appendedRecords (processSlide env h5)).map (fun r => r.patch_idx) =
      List.range (appendedRecords (processSlide env h5)).length := by
  cases hex : env.fileExists (find_wsi_file env.wsiDir (wsiId h5.name)) with
  | false => simp [processSlide, hex] at hb
  | true =>
    cases hop : env.slideOpenOk (wsiId h5.name) with
    | false => simp [processSlide, hex, hop] at hb
    | true =>
      cases hco : h5.hasCoords with
      | false => simp [processSlide, hex, hop, hco] at hb
      | true =>
        obtain ⟨pre, post, hsplit, hrec, hflag, -⟩ :=
          streamFrom_spec env (wsiId h5.name) (h5.patchLevelAttr.getD 0)
            (h5.patchSizeAttr.getD 256) h5.coords.length h5.coords le_rfl 0
        have hglobal : appendedRecords (processSlide env h5) =
            buildAll env (wsiId h5.name) (h5.patchLevelAttr.getD 0)
              (h5.patchSizeAttr.getD 256) 0 pre := by
          by_cases hfl : (streamFrom env (wsiId h5.name) (h5.patchLevelAttr.getD 0)
              (h5.patchSizeAttr.getD 256) 0 h5.coords).2 = true
          · simp [processSlide_streaming env h5 hex hop hco, hfl, hrec]
          · simp [processSlide_streaming env h5 hex hop hco, hfl, hrec]
        have hmem : Event.append bt ∈ (streamFrom env (wsiId h5.name)
            (h5.patchLevelAttr.getD 0) (h5.patchSizeAttr.getD 256) 0 h5.coords).1 := by
          rw [processSlide_streaming env h5 hex hop hco] at hb
          rcases List.mem_cons.mp hb with h | h
          · exact absurd h (by simp)
          · rcases List.mem_append.mp h with h | h
            · exact h
            · have h := List.mem_singleton.mp h
              by_cases hfl : (streamFrom env (wsiId h5.name) (h5.patchLevelAttr.getD 0)
                  (h5.patchSizeAttr.getD 256) 0 h5.coords).2 = true
              · rw [if_pos hfl] at h; simp at h
              · rw [if_neg hfl] at h; simp at h
        obtain ⟨hne, hlen, st, hmap⟩ :=
          streamFrom_batch_shape env (wsiId h5.name) (h5.patchLevelAttr.getD 0)
            (h5.patchSizeAttr.getD 256) h5.coords.length h5.coords le_rfl 0 bt hmem
        refine ⟨hne, hlen, ⟨st, hmap⟩, ?_⟩
        rw [hglobal, buildAll_map_idx, buildAll_length,
          List.range_eq_range' pre.length]

/-- Witness for C5: the single full batch of the concrete scenario. -/
theorem c5_window_discipline_witness :
    Event.append
        [⟨"A", 0, 0, 0, [7]⟩, ⟨"A", 1, 256, 0, [7]⟩, ⟨"A", 2, 0, 256, [7]⟩] ∈
      processSlide envAll h5A ∧
    (([⟨"A", 0, 0, 0, [7]⟩, ⟨"A", 1, 256, 0, [7]⟩,
        ⟨"A", 2, 0, 256, [7]⟩] : List PatchRecord) ≠ [] ∧
      ([⟨"A", 0, 0, 0, [7]⟩, ⟨"A", 1, 256, 0, [7]⟩,
        ⟨"A", 2, 0, 256, [7]⟩] : List PatchRecord).length ≤ batch_size ∧
      (∃ st : Nat,
        ([⟨"A", 0, 0, 0, [7]⟩, ⟨"A", 1, 256, 0, [7]⟩,
          ⟨"A", 2, 0, 256, [7]⟩] : List PatchRecord).map (fun r => r.patch_idx) =
          List.range' st ([⟨"A", 0, 0, 0, [7]⟩, ⟨"A", 1, 256, 0, [7]⟩,
            ⟨"A", 2, 0, 256, [7]⟩] : List PatchRecord).length) ∧
      (appendedRecords (processSlide envAll h5A)).map (fun r => r.patch_idx) =
        List.range (appendedRecords (processSlide envAll h5A)).length) := by
  have hmem : Event.append
      [⟨"A", 0, 0, 0, [7]⟩, ⟨"A", 1, 256, 0, [7]⟩, ⟨"A", 2, 0, 256, [7]⟩] ∈
      processSlide envAll h5A := by
    have htr : processSlide envAll h5A =
        [Event.openSlide "A",
          Event.append [⟨"A", 0, 0, 0, [7]⟩, ⟨"A", 1, 256, 0, [7]⟩,
            ⟨"A", 2, 0, 256, [7]⟩],
          Event.closeSlide "A"] := by
      simp [processSlide, streamFrom, buildWindow, envAll, h5A, batch_size,
        wsiId, find_wsi_file]
    rw [htr]
    simp
  exact ⟨hmem, c5_window_discipline envAll h5A _ hmem⟩

/-- C2: when an extraction raises mid-stream, the slide's trace is the
open, the appends already made, then the error handler; the appended
records are exactly the reference records of a proper prefix of the
coordinates (already-appended batches are kept, nothing is rolled back,
and no later coordinate is appended), and the run carries on with the
surrounding slides. -/
theorem c2_midstream_failure_contained (p : PipelineEnv) (l1 l2 : List H5File)
    (h5 : H5File) (b : Bool)
    (hd : p.dirFiles = l1 ++ h5 :: l2) (hh : isH5 h5.name = true)
    (hs : setupTable p.createResult p.openTableOk = some b)
    (hex : p.env.fileExists (find_wsi_file p.env.wsiDir (wsiId h5.name)) = true)
    (hop : p.env.slideOpenOk (wsiId h5.name) = true)
    (hco : h5.hasCoords = true)
    (hfail : (streamFrom p.env (wsiId h5.name) (h5.patchLevelAttr.getD 0)
      (h5.patchSizeAttr.getD 256) 0 h5.coords).2 = false) :
    ∃ pre post : List Coord,
      h5.coords = pre ++ post ∧ post ≠ [] ∧
      appendedRecords (processSlide p.env h5) =
        buildAll p.env (wsiId h5.name) (h5.patchLevelAttr.getD 0)
          (h5.patchSizeAttr.getD 256) 0 pre ∧
      processSlide p.env h5 =
        Event.openSlide (wsiId h5.name) ::
          ((streamFrom p.env (wsiId h5.name) (h5.patchLevelAttr.getD 0)
              (h5.patchSizeAttr.getD 256) 0 h5.coords).1 ++
            [Event.errorSlide h5.name]) ∧
      process_h5_patches p =
        Except.ok ((l1.filter (fun f => isH5 f.name)).flatMap (processSlide p.env) ++
          (processSlide p.env h5 ++
            (l2.filter (fun f => isH5 f.name)).flatMap (processSlide p.env))) := by
  obtain ⟨pre, post, hsplit, hne, hrec⟩ :=
    streamFrom_fail_records p.env (wsiId h5.name) (h5.patchLevelAttr.getD 0)
      (h5.patchSizeAttr.getD 256) 0 h5.coords hfail
  have hps : processSlide p.env h5 =
      Event.openSlide (wsiId h5.name) ::
        ((streamFrom p.env (wsiId h5.name) (h5.patchLevelAttr.getD 0)
            (h5.patchSizeAttr.getD 256) 0 h5.coords).1 ++
          [Event.errorSlide h5.name]) := by
    rw [processSlide_streaming p.env h5 hex hop hco]
    rw [if_neg (by simp [hfail])]
  refine ⟨pre, post, hsplit, hne, ?_, hps, run_decomp p l1 l2 h5 b hd hh hs⟩
  rw [hps]
  simpa using hrec

/-- Witness for C2 on the concrete always-raising run. -/
theorem c2_midstream_failure_contained_witness :
    pRaise.dirFiles = [] ++ h5A :: [] ∧
    isH5 h5A.name = true ∧
    setupTable pRaise.createResult pRaise.openTableOk = some true ∧
    pRaise.env.fileExists (find_wsi_file pRaise.env.wsiDir (wsiId h5A.name)) = true ∧
    pRaise.env.slideOpenOk (wsiId h5A.name) = true ∧
    h5A.hasCoords = true ∧
    (streamFrom pRaise.env (wsiId h5A.name) (h5A.patchLevelAttr.getD 0)
      (h5A.patchSizeAttr.getD 256) 0 h5A.coords).2 = false ∧
    (∃ pre post : List Coord,
      h5A.coords = pre ++ post ∧ post ≠ [] ∧
      appendedRecords (processSlide pRaise.env h5A) =
        buildAll pRaise.env (wsiId h5A.name) (h5A.patchLevelAttr.getD 0)
          (h5A.patchSizeAttr.getD 256) 0 pre ∧
      processSlide pRaise.env h5A =
        Event.openSlide (wsiId h5A.name) ::
          ((streamFrom pRaise.env (wsiId h5A.name) (h5A.patchLevelAttr.getD 0)
              (h5A.patchSizeAttr.getD 256) 0 h5A.coords).1 ++
            [Event.errorSlide h5A.name]) ∧
      process_h5_patches pRaise =
        Except.ok ((([] : List H5File).filter (fun f => isH5 f.name)).flatMap (processSlide pRaise.env) ++
          (processSlide pRaise.env h5A ++
            (([] : List H5File).filter (fun f => isH5 f.name)).flatMap (processSlide pRaise.env)))) := by
  have hfail : (streamFrom pRaise.env (wsiId h5A.name) (h5A.patchLevelAttr.getD 0)
      (h5A.patchSizeAttr.getD 256) 0 h5A.coords).2 = false := by
    simp [pRaise, envRaise, h5A, streamFrom, buildWindow, batch_size, wsiId]
  exact ⟨rfl, by decide, rfl, rfl, rfl, rfl, hfail,
    c2_midstream_failure_contained pRaise [] [] h5A true rfl (by decide) rfl
      rfl rfl rfl hfail⟩

/-- C6: the metadata defaults of lines 86-94 — a slide processed without
error appends records whose patches were extracted (and encoded) at level
0 when `patch_level` is absent and with edge length 256 when `patch_size`
is absent, and at the attributes' integer values when present, in every
combination. -/
theorem c6_metadata_defaults (env : Env) (h5 : H5File)
    (hsucc : slideSucceeded env h5 = true) :
    (h5.patchLevelAttr = none → h5.patchSizeAttr = none →
      appendedRecords (processSlide env h5) =
        buildAll env (wsiId h5.name) 0 256 0 h5.coords) ∧
    (∀ l : Int, h5.patchLevelAttr = some l → h5.patchSizeAttr = none →
      appendedRecords (processSlide env h5) =
        buildAll env (wsiId h5.name) l 256 0 h5.coords) ∧
    (∀ s : Int, h5.patchLevelAttr = none → h5.patchSizeAttr = some s →
      appendedRecords (processSlide env h5) =
        buildAll env (wsiId h5.name) 0 s 0 h5.coords) ∧
    (∀ l s : Int, h5.patchLevelAttr = some l → h5.patchSizeAttr = some s →
      appendedRecords (processSlide env h5) =
        buildAll env (wsiId h5.name) l s 0 h5.coords) := by
  obtain ⟨hex, hop, hco, hfl⟩ :
      env.fileExists (find_wsi_file env.wsiDir (wsiId h5.name)) = true ∧
      env.slideOpenOk (wsiId h5.name) = true ∧
      h5.hasCoords = true ∧
      (streamFrom env (wsiId h5.name) (h5.patchLevelAttr.getD 0)
        (h5.patchSizeAttr.getD 256) 0 h5.coords).2 = true := by
    simpa [slideSucceeded, Bool.and_eq_true, and_assoc] using hsucc
  have key : appendedRecords (processSlide env h5) =
      buildAll env (wsiId h5.name) (h5.patchLevelAttr.getD 0)
        (h5.patchSizeAttr.getD 256) 0 h5.coords := by
    rw [processSlide_streaming env h5 hex hop hco, if_pos hfl]
    simp only [appendedRecords_cons, appendedRecords_append]
    simpa using streamFrom_ok_records env (wsiId h5.name)
      (h5.patchLevelAttr.getD 0) (h5.patchSizeAttr.getD 256) 0 h5.coords hfl
  refine ⟨?_, ?_, ?_, ?_⟩
  · intro hl hsz; rw [key, hl, hsz]; rfl
  · intro l hl hsz; rw [key, hl, hsz]; rfl
  · intro s hl hsz; rw [key, hl, hsz]; rfl
  · intro l s hl hsz; rw [key, hl, hsz]; rfl

/-- Witness for C6 on the concrete attribute-less scenario. -/
theorem c6_metadata_defaults_witness :
    slideSucceeded envAll h5A = true ∧
    ((h5A.patchLevelAttr = none → h5A.patchSizeAttr = none →
      appendedRecords (processSlide envAll h5A) =
        buildAll envAll (wsiId h5A.name) 0 256 0 h5A.coords) ∧
    (∀ l : Int, h5A.patchLevelAttr = some l → h5A.patchSizeAttr = none →
      appendedRecords (processSlide envAll h5A) =
        buildAll envAll (wsiId h5A.name) l 256 0 h5A.coords) ∧
    (∀ s : Int, h5A.patchLevelAttr = none → h5A.patchSizeAttr = some s →
      appendedRecords (processSlide envAll h5A) =
        buildAll envAll (wsiId h5A.name) 0 s 0 h5A.coords) ∧
    (∀ l s : Int, h5A.patchLevelAttr = some l → h5A.patchSizeAttr = some s →
      appendedRecords (processSlide envAll h5A) =
        buildAll envAll (wsiId h5A.name) l s 0 h5A.coords)) := by
  have hsucc : slideSucceeded envAll h5A = true := by
    simp [slideSucceeded, envAll, h5A, streamFrom, buildWindow, batch_size,
      wsiId, find_wsi_file]
  exact ⟨hsucc, c6_metadata_defaults envAll h5A hsucc⟩

/-- C1 counterexample: all of the claim's hypotheses hold — a fresh-table
run over a directory of pairwise-distinct filenames, and slide `.h5` with
N = 1 coordinate completes without error — yet three records carry that
slide's identifier, because `os.path.splitext` derives the SAME
identifier `.h5` from the distinct filenames `.h5` and `.h5.h5`, so the
second slide's two rows also carry it and the indices under that
identifier are 0, 0, 1 rather than the range [0, 1). -/
theorem c1_counterexample_colliding_ids :
    pCollide.dirFiles = [] ++ h5Dot :: [h5DotH5] ∧
    isH5 h5Dot.name = true ∧
    (pCollide.dirFiles.map (fun f => f.name)).Nodup ∧
    pCollide.createResult = CreateResult.ok ∧
    slideSucceeded pCollide.env h5Dot = true ∧
    h5Dot.coords.length = 1 ∧
    wsiId h5DotH5.name = wsiId h5Dot.name ∧
    tableAfter pCollide =
      [⟨".h5", 0, 0, 0, [7]⟩, ⟨".h5", 0, 1, 1, [7]⟩, ⟨".h5", 1, 2, 2, [7]⟩] ∧
    ((tableAfter pCollide).filter (fun r => r.wsi_id == wsiId h5Dot.name)).length = 3 := by
  have hsucc : slideSucceeded pCollide.env h5Dot = true := by
    simp [slideSucceeded, pCollide, envAll, h5Dot, streamFrom, buildWindow,
      batch_size, wsiId, find_wsi_file]
  have htable : tableAfter pCollide =
      [⟨".h5", 0, 0, 0, [7]⟩, ⟨".h5", 0, 1, 1, [7]⟩, ⟨".h5", 1, 2, 2, [7]⟩] := by
    simp [tableAfter, pCollide, envAll, h5Dot, h5DotH5, isH5, processSlide,
      streamFrom, buildWindow, batch_size, wsiId, find_wsi_file]
  refine ⟨rfl, by decide, by decide, rfl, hsucc, rfl, by decide, htable, ?_⟩
  rw [htable]
  decide

/-- C1 amended: after a fresh-table run in which no two enumerated
coordinate files derive the same slide identifier (true of every directory
without colliding hidden-file names such as `.h5` vs `.h5.h5`), a slide
with N coordinates whose processing completed without error owns exactly
N rows of the table: the rows carrying its identifier number N, their
patch indices are exactly `[0, N)` in order, and the i-th such row's
(coord_x, coord_y) is the i-th source coordinate. -/
theorem c1_rows_complete_of_distinct_ids (p : PipelineEnv)
    (l1 l2 : List H5File) (h5 : H5File)
    (hd : p.dirFiles = l1 ++ h5 :: l2) (hh : isH5 h5.name = true)
    (hids : ((p.dirFiles.filter (fun f => isH5 f.name)).map
      (fun f => wsiId f.name)).Nodup)
    (hfresh : p.createResult = CreateResult.ok)
    (hsucc : slideSucceeded p.env h5 = true) :
    ((tableAfter p).filter (fun r => r.wsi_id == wsiId h5.name)).length =
      h5.coords.length ∧
    ((tableAfter p).filter (fun r => r.wsi_id == wsiId h5.name)).map
        (fun r => r.patch_idx) = List.range h5.coords.length ∧
    ((tableAfter p).filter (fun r => r.wsi_id == wsiId h5.name)).map
        (fun r => (r.coord_x, r.coord_y)) =
      h5.coords.map (fun c => (c.x, c.y)) := by
  obtain ⟨hex, hop, hco, hfl⟩ :
      p.env.fileExists (find_wsi_file p.env.wsiDir (wsiId h5.name)) = true ∧
      p.env.slideOpenOk (wsiId h5.name) = true ∧
      h5.hasCoords = true ∧
      (streamFrom p.env (wsiId h5.name) (h5.patchLevelAttr.getD 0)
        (h5.patchSizeAttr.getD 256) 0 h5.coords).2 = true := by
    simpa [slideSucceeded, Bool.and_eq_true, and_assoc] using hsucc
  rw [hd, List.filter_append, List.filter_cons, if_pos (by simpa using hh),
    List.map_append, List.map_cons] at hids
  have hno1 : ∀ g ∈ l1.filter (fun f => isH5 f.name),
      wsiId g.name ≠ wsiId h5.name := by
    intro g hg heq
    rcases List.nodup_append.mp hids with ⟨-, -, hdisj⟩
    exact hdisj (List.mem_map_of_mem _ hg)
      (by rw [heq]; exact List.mem_cons_self _ _)
  have hno2 : ∀ g ∈ l2.filter (fun f => isH5 f.name),
      wsiId g.name ≠ wsiId h5.name := by
    intro g hg heq
    rcases List.nodup_append.mp hids with ⟨-, hcons, -⟩
    rcases List.nodup_cons.mp hcons with ⟨hnotin, -⟩
    exact hnotin (heq ▸ List.mem_map_of_mem _ hg)
  have hside : ∀ (l : List H5File),
      (∀ g ∈ l.filter (fun f => isH5 f.name), wsiId g.name ≠ wsiId h5.name) →
      (appendedRecords ((l.filter (fun f => isH5 f.name)).flatMap
        (processSlide p.env))).filter (fun r => r.wsi_id == wsiId h5.name) = [] := by
    intro l hl
    rw [List.filter_eq_nil_iff]
    intro r hr hbeq
    rw [appendedRecords_flatMap] at hr
    rcases List.mem_flatMap.mp hr with ⟨g, hgmem, hrmem⟩
    have hid := processSlide_records_id p.env g r hrmem
    have heq : r.wsi_id = wsiId h5.name := by simpa using hbeq
    rw [hid] at heq
    exact hl g hgmem heq
  have hmid : (appendedRecords (processSlide p.env h5)).filter
      (fun r => r.wsi_id == wsiId h5.name) = appendedRecords (processSlide p.env h5) := by
    rw [List.filter_eq_self]
    intro r hr
    have := processSlide_records_id p.env h5 r hr
    simp [this]
  have key : appendedRecords (processSlide p.env h5) =
      buildAll p.env (wsiId h5.name) (h5.patchLevelAttr.getD 0)
        (h5.patchSizeAttr.getD 256) 0 h5.coords := by
    rw [processSlide_streaming p.env h5 hex hop hco, if_pos hfl]
    simp only [appendedRecords_cons, appendedRecords_append]
    simpa using streamFrom_ok_records p.env (wsiId h5.name)
      (h5.patchLevelAttr.getD 0) (h5.patchSizeAttr.getD 256) 0 h5.coords hfl
  have hta : (tableAfter p).filter (fun r => r.wsi_id == wsiId h5.name) =
      appendedRecords (processSlide p.env h5) := by
    rw [tableAfter, hd, if_pos hfresh, List.nil_append, List.filter_append,
      List.filter_cons, if_pos (by simpa using hh), List.flatMap_append,
      List.flatMap_cons, appendedRecords_append, appendedRecords_append,
      List.filter_append, List.filter_append, hside l1 hno1, hside l2 hno2,
      hmid, List.nil_append, List.append_nil]
  rw [hta, key]
  exact ⟨buildAll_length p.env (wsiId h5.name) _ _ h5.coords 0,
    by rw [buildAll_map_idx, List.range_eq_range' h5.coords.length],
    buildAll_map_xy p.env (wsiId h5.name) _ _ h5.coords 0⟩

/-- Witness for the amended C1 on the concrete fresh-table scenario:
slide `A` with three coordinates ends owning exactly rows 0, 1, 2 with
matching coordinates. -/
theorem c1_rows_complete_of_distinct_ids_witness :
    pA.dirFiles = [] ++ h5A :: [] ∧
    isH5 h5A.name = true ∧
    ((pA.dirFiles.filter (fun f => isH5 f.name)).map
      (fun f => wsiId f.name)).Nodup ∧
    pA.createResult = CreateResult.ok ∧
    slideSucceeded pA.env h5A = true ∧
    (((tableAfter pA).filter (fun r => r.wsi_id == wsiId h5A.name)).length =
        h5A.coords.length ∧
      ((tableAfter pA).filter (fun r => r.wsi_id == wsiId h5A.name)).map
          (fun r => r.patch_idx) = List.range h5A.coords.length ∧
      ((tableAfter pA).filter (fun r => r.wsi_id == wsiId h5A.name)).map
          (fun r => (r.coord_x, r.coord_y)) =
        h5A.coords.map (fun c => (c.x, c.y))) := by
  have hsucc : slideSucceeded pA.env h5A = true := by
    simp [slideSucceeded, pA, envAll, h5A, streamFrom, buildWindow,
      batch_size, wsiId, find_wsi_file]
  exact ⟨rfl, by decide, by decide, rfl, hsucc,
    c1_rows_complete_of_distinct_ids pA [] [] h5A rfl (by decide) (by decide)
      rfl hsucc⟩

end CLAM
